import Mathlib

/-!
Shallow embedding of `src/src/pages/api/invite.ts` (the Discord invite
issuing endpoint of StrandsServices/community-strands-gg) and proofs of the
specification's claims about it.

The handler is modelled as a pure function from the request, the
environment bindings, the current time and the outcomes of the external
effects (KV get/delete/put and the Discord API call, which are inputs
representing the nondeterministic environment) to the HTTP response
together with the trace of external operations the handler performed.
-/

namespace Invite

/-- One cached invitation record, the JSON object stored in KV
(`{ uuid, code, expiresAt, createdAt }`, timestamps in ms since epoch). -/
structure InviteRecord where
  uuid : String
  code : String
  expiresAt : Int
  createdAt : Int
deriving DecidableEq

/-- JavaScript truthiness of a nullable string: `null`/`undefined` and the
empty string are falsy, every other string is truthy. Used for
`if (honeypot)`, `if (uuid && KV)`, `!DISCORD_BOT_TOKEN`, `!data.code`. -/
def jsTruthy : Option String → Bool
  | none => false
  | some s => s != ""

/-- The KV key `discord:invite:${uuid}` (lines 73 and 168 of the source). -/
def kvKeyFor (uuid : String) : String := "discord:invite:" ++ uuid

/-- Boolean prefix test on strings, via their character lists
(models JavaScript `referer.startsWith(allowedOrigin)`). -/
def strStartsWith (s pre : String) : Bool :=
  List.isPrefixOf pre.toList s.toList

/-- Substring test on character lists: the pattern occurs somewhere in the
haystack. -/
def containsSub : List Char → List Char → Bool
  | [], pat => pat.isEmpty
  | c :: tl, pat => List.isPrefixOf pat (c :: tl) || containsSub tl pat

/-- ASCII lowercasing of a character list (models case-insensitive regex
matching against the lowercase bot patterns). -/
def lowerChars (cs : List Char) : List Char := cs.map Char.toLower

/-- The inbound request: the headers and query parameters the handler
consults. `none` models an absent header / query parameter. -/
structure Request where
  origin : Option String
  referer : Option String
  urlOrigin : String
  userAgent : Option String
  email : Option String
  uuid : Option String

/-- The environment bindings `runtime.env`: the two Discord credentials and
whether the `DISCORD_INVITES` KV binding is present. -/
structure Env where
  botToken : Option String
  channelId : Option String
  kvPresent : Bool

/-- The CORS guard of lines 12-23:
`(origin && origin !== allowedOrigin) || (referer && !referer.startsWith(allowedOrigin))`. -/
def corsViolation (req : Request) : Bool :=
  (match req.origin with
   | none => false
   | some o => o != "" && o != req.urlOrigin)
  ||
  (match req.referer with
   | none => false
   | some r => r != "" && !(strStartsWith r req.urlOrigin))

/-- The literal bot-pattern list of lines 44-54 (all patterns are literal
lowercase words; the regexes carry the `i` flag). -/
def botPatterns : List String :=
  ["bot", "crawler", "spider", "scraper", "curl", "wget", "python", "go-http", "java"]

/-- `botPatterns.some(pattern => pattern.test(userAgent))`: some pattern
occurs, case-insensitively, in the user agent string. -/
def isBotUA (ua : String) : Bool :=
  botPatterns.any (fun p => containsSub (lowerChars ua.toList) p.toList)

/-- Outcome of the Discord `fetch` of lines 120-135: the fetch (or body
parse) throws, or the response has a non-success status with an error text,
or it succeeds and its JSON carries an optional `code` field (`none` models
a missing/empty code, rejected by `if(!data.code)`). -/
inductive DiscordResult where
  | fetchError : DiscordResult
  | httpError (status : Nat) (detail : String) : DiscordResult
  | ok (code : Option String) : DiscordResult
deriving DecidableEq

/-- One external operation performed by the handler, in order. KV delete
and put carry whether the store accepted them (`false` models a raised
error, which the handler catches). -/
inductive OpEvent where
  | kvGet (key : String) : OpEvent
  | kvDelete (key : String) (ok : Bool) : OpEvent
  | kvPut (key : String) (record : InviteRecord) (ttlSeconds : Int) (ok : Bool) : OpEvent
  | discordCall : OpEvent
deriving DecidableEq

/-- A response body: an error object `{ error, details? }` or a success
object `{ uuid, code, expiresAt, cached, serverTime }`. -/
inductive RespBody where
  | errorBody (error : String) (details : Option String) : RespBody
  | inviteBody (uuid : String) (code : String) (expiresAt : Int)
      (cached : Bool) (serverTime : Int) : RespBody
deriving DecidableEq

/-- An HTTP response: status code and JSON body. -/
structure HttpResponse where
  status : Nat
  body : RespBody
deriving DecidableEq

/-- Prefix a list of already-performed operations onto the result of the
rest of the handler. -/
def prependEvents (evs : List OpEvent) (p : HttpResponse × List OpEvent) :
    HttpResponse × List OpEvent :=
  (p.1, evs ++ p.2)

/-- Lines 116-194: issue a new invite via the Discord API and, on success,
store it in KV (when the binding exists) with TTL
`Math.floor((expiresAt - now) / 1000)`; put failure is caught and ignored. -/
def issueNew (uuid : String) (kvPresent : Bool) (now : Int) (kvPutOk : Bool)
    (discord : DiscordResult) : HttpResponse × List OpEvent :=
  match discord with
  | .fetchError =>
      (⟨500, .errorBody "Internal server error" none⟩, [.discordCall])
  | .httpError status detail =>
      (⟨status, .errorBody "Failed to generate invite" (some detail)⟩, [.discordCall])
  | .ok codeOpt =>
      let expiresAt : Int := now + 120 * 1000
      if !(jsTruthy codeOpt) then
        (⟨500, .errorBody "Invalid response from Discord API" none⟩, [.discordCall])
      else
        let code := codeOpt.getD ""
        let inviteData : InviteRecord := ⟨uuid, code, expiresAt, now⟩
        let putEvents :=
          if kvPresent then
            [OpEvent.kvPut (kvKeyFor uuid) inviteData ((expiresAt - now) / 1000) kvPutOk]
          else []
        (⟨200, .inviteBody uuid code expiresAt false now⟩,
          OpEvent.discordCall :: putEvents)

/-- The whole `GET` handler of `invite.ts`. `kvGetResult` is the outcome of
`KV.get(kvKey, 'json')` on this request's key (`Except.error ()` models a
raised error, caught at line 106-108); `kvDeleteOk`/`kvPutOk` are the
outcomes of `KV.delete`/`KV.put`; `freshUuid` is the value
`crypto.randomUUID()` would return; `discord` is the Discord API outcome. -/
def GET (req : Request) (env : Env) (now : Int)
    (kvGetResult : Except Unit (Option InviteRecord))
    (kvDeleteOk kvPutOk : Bool) (freshUuid : String)
    (discord : DiscordResult) : HttpResponse × List OpEvent :=
  if corsViolation req then
    (⟨403, .errorBody "Forbidden" none⟩, [])
  else if !(jsTruthy env.botToken) || !(jsTruthy env.channelId) then
    (⟨500, .errorBody "Missing Discord bot configuration" none⟩, [])
  else if jsTruthy req.email then
    (⟨400, .errorBody "Invalid request" none⟩, [])
  else if isBotUA ((req.userAgent).getD "") then
    (⟨403, .errorBody "Invalid request" none⟩, [])
  else if jsTruthy req.uuid && env.kvPresent then
    let clientUuid := (req.uuid).getD ""
    let key := kvKeyFor clientUuid
    match kvGetResult with
    | .error _ =>
        prependEvents [.kvGet key]
          (issueNew clientUuid env.kvPresent now kvPutOk discord)
    | .ok none =>
        prependEvents [.kvGet key]
          (issueNew clientUuid env.kvPresent now kvPutOk discord)
    | .ok (some cachedInvite) =>
        if cachedInvite.expiresAt - now > 10000 then
          (⟨200, .inviteBody cachedInvite.uuid cachedInvite.code
              cachedInvite.expiresAt true now⟩,
            [.kvGet key])
        else
          prependEvents [.kvGet key, .kvDelete key kvDeleteOk]
            (issueNew clientUuid env.kvPresent now kvPutOk discord)
  else
    issueNew (if jsTruthy req.uuid then (req.uuid).getD "" else freshUuid)
      env.kvPresent now kvPutOk discord

/-- Helper: the issuance phase never performs a KV read. -/
theorem issueNew_no_kvGet (u : String) (kvp : Bool) (now : Int) (pOk : Bool)
    (disc : DiscordResult) (k : String) :
    OpEvent.kvGet k ∉ (issueNew u kvp now pOk disc).2 := by
  unfold issueNew
  cases disc with
  | fetchError => simp
  | httpError status detail => simp
  | ok codeOpt =>
    by_cases hcd : jsTruthy codeOpt = true
    · by_cases hkp : kvp <;> simp [hcd, hkp]
    · simp [hcd]

/-- C1: when the caller supplies an identifier whose cached record still has
strictly more than 10,000 ms of remaining life, the handler returns that
record's code and expiresAt unchanged with `cached = true` and never calls
the Discord API; two such calls (at times `now1` and `now2`, both inside
the validity window) therefore return the identical code and expiresAt. -/
theorem C1_cached_hit_idempotent
    (req : Request) (env : Env) (now1 now2 : Int) (rec : InviteRecord)
    (dOk pOk : Bool) (fresh : String) (disc : DiscordResult)
    (hc : corsViolation req = false)
    (hb : jsTruthy env.botToken = true)
    (hch : jsTruthy env.channelId = true)
    (he : jsTruthy req.email = false)
    (hua : isBotUA ((req.userAgent).getD "") = false)
    (hu : jsTruthy req.uuid = true)
    (hkv : env.kvPresent = true)
    (h1 : rec.expiresAt - now1 > 10000)
    (h2 : rec.expiresAt - now2 > 10000) :
    (GET req env now1 (Except.ok (some rec)) dOk pOk fresh disc).1 =
      ⟨200, RespBody.inviteBody rec.uuid rec.code rec.expiresAt true now1⟩ ∧
    OpEvent.discordCall ∉ (GET req env now1 (Except.ok (some rec)) dOk pOk fresh disc).2 ∧
    (GET req env now2 (Except.ok (some rec)) dOk pOk fresh disc).1 =
      ⟨200, RespBody.inviteBody rec.uuid rec.code rec.expiresAt true now2⟩ := by
  unfold GET
  simp [hc, hb, hch, he, hua, hu, hkv, h1, h2]

/-- Witness for C1 at a concrete request, cache record and pair of times. -/
theorem C1_witness :
    ((⟨"u1", "abc", 120000, 0⟩ : InviteRecord).expiresAt - 0 > 10000) ∧
    ((GET ⟨none, none, "https://strands.gg", some "Mozilla/5.0", none, some "u1"⟩
        ⟨some "tok", some "chan", true⟩ 0
        (Except.ok (some ⟨"u1", "abc", 120000, 0⟩))
        true true "fresh" (DiscordResult.ok (some "new"))).1 =
      ⟨200, RespBody.inviteBody "u1" "abc" 120000 true 0⟩ ∧
    OpEvent.discordCall ∉
      (GET ⟨none, none, "https://strands.gg", some "Mozilla/5.0", none, some "u1"⟩
        ⟨some "tok", some "chan", true⟩ 0
        (Except.ok (some ⟨"u1", "abc", 120000, 0⟩))
        true true "fresh" (DiscordResult.ok (some "new"))).2 ∧
    (GET ⟨none, none, "https://strands.gg", some "Mozilla/5.0", none, some "u1"⟩
        ⟨some "tok", some "chan", true⟩ 5000
        (Except.ok (some ⟨"u1", "abc", 120000, 0⟩))
        true true "fresh" (DiscordResult.ok (some "new"))).1 =
      ⟨200, RespBody.inviteBody "u1" "abc" 120000 true 5000⟩) :=
  ⟨by decide,
   C1_cached_hit_idempotent
     ⟨none, none, "https://strands.gg", some "Mozilla/5.0", none, some "u1"⟩
     ⟨some "tok", some "chan", true⟩ 0 5000 ⟨"u1", "abc", 120000, 0⟩
     true true "fresh" (DiscordResult.ok (some "new"))
     (by decide) (by decide) (by decide) (by decide) (by decide)
     (by decide) (by decide) (by decide) (by decide)⟩

/-- C2: when the cached record's remaining life is at most 10,000 ms, the
handler deletes the cache entry, calls the Discord API, and (when Discord
returns a fresh distinct code, as requested via `unique: true`) responds
with that different code and expiresAt `now + 120000`, which is strictly
later than the stale record's expiresAt. -/
theorem C2_stale_reissued
    (req : Request) (env : Env) (now : Int) (rec : InviteRecord)
    (pOk : Bool) (fresh newCode : String)
    (hc : corsViolation req = false)
    (hb : jsTruthy env.botToken = true)
    (hch : jsTruthy env.channelId = true)
    (he : jsTruthy req.email = false)
    (hua : isBotUA ((req.userAgent).getD "") = false)
    (hu : jsTruthy req.uuid = true)
    (hkv : env.kvPresent = true)
    (hstale : rec.expiresAt - now ≤ 10000)
    (hcode : newCode ≠ "")
    (hdiff : newCode ≠ rec.code) :
    (GET req env now (Except.ok (some rec)) true pOk fresh
        (DiscordResult.ok (some newCode))).1 =
      ⟨200, RespBody.inviteBody ((req.uuid).getD "") newCode (now + 120 * 1000) false now⟩ ∧
    OpEvent.kvDelete (kvKeyFor ((req.uuid).getD "")) true ∈
      (GET req env now (Except.ok (some rec)) true pOk fresh
        (DiscordResult.ok (some newCode))).2 ∧
    OpEvent.discordCall ∈
      (GET req env now (Except.ok (some rec)) true pOk fresh
        (DiscordResult.ok (some newCode))).2 ∧
    newCode ≠ rec.code ∧
    rec.expiresAt < now + 120 * 1000 := by
  have hnotvalid : ¬ (rec.expiresAt - now > 10000) := by omega
  have hct : jsTruthy (some newCode) = true := by simp [jsTruthy, hcode]
  unfold GET
  simp [hc, hb, hch, he, hua, hu, hkv, hnotvalid, issueNew, prependEvents,
    hct, hdiff]
  omega

/-- Witness for C2 at a concrete stale record and fresh Discord code. -/
theorem C2_witness :
    ((⟨"u1", "abc", 120000, 0⟩ : InviteRecord).expiresAt - 115000 ≤ 10000) ∧
    ((GET ⟨none, none, "https://strands.gg", some "Mozilla/5.0", none, some "u1"⟩
        ⟨some "tok", some "chan", true⟩ 115000
        (Except.ok (some ⟨"u1", "abc", 120000, 0⟩))
        true true "fresh" (DiscordResult.ok (some "xyz"))).1 =
      ⟨200, RespBody.inviteBody "u1" "xyz" 235000 false 115000⟩ ∧
    OpEvent.kvDelete (kvKeyFor "u1") true ∈
      (GET ⟨none, none, "https://strands.gg", some "Mozilla/5.0", none, some "u1"⟩
        ⟨some "tok", some "chan", true⟩ 115000
        (Except.ok (some ⟨"u1", "abc", 120000, 0⟩))
        true true "fresh" (DiscordResult.ok (some "xyz"))).2 ∧
    OpEvent.discordCall ∈
      (GET ⟨none, none, "https://strands.gg", some "Mozilla/5.0", none, some "u1"⟩
        ⟨some "tok", some "chan", true⟩ 115000
        (Except.ok (some ⟨"u1", "abc", 120000, 0⟩))
        true true "fresh" (DiscordResult.ok (some "xyz"))).2 ∧
    ("xyz" : String) ≠ "abc" ∧
    ((⟨"u1", "abc", 120000, 0⟩ : InviteRecord).expiresAt : Int) < 115000 + 120 * 1000) :=
  ⟨by decide,
   C2_stale_reissued
     ⟨none, none, "https://strands.gg", some "Mozilla/5.0", none, some "u1"⟩
     ⟨some "tok", some "chan", true⟩ 115000 ⟨"u1", "abc", 120000, 0⟩
     true "fresh" "xyz"
     (by decide) (by decide) (by decide) (by decide) (by decide)
     (by decide) (by decide) (by decide) (by decide) (by decide)⟩

/-- C3: a request that supplies no identifier runs the issuance path under
the freshly generated identifier and performs no cache read at all; and,
conversely, any `KV.get` in the trace means the caller supplied a
(non-empty) identifier. -/
theorem C3_fresh_uuid_no_cache_read
    (req : Request) (env : Env) (now : Int)
    (kvGetResult : Except Unit (Option InviteRecord))
    (dOk pOk : Bool) (fresh : String) (disc : DiscordResult)
    (hc : corsViolation req = false)
    (hb : jsTruthy env.botToken = true)
    (hch : jsTruthy env.channelId = true)
    (he : jsTruthy req.email = false)
    (hua : isBotUA ((req.userAgent).getD "") = false) :
    (req.uuid = none →
      GET req env now kvGetResult dOk pOk fresh disc =
        issueNew fresh env.kvPresent now pOk disc ∧
      ∀ k, OpEvent.kvGet k ∉ (GET req env now kvGetResult dOk pOk fresh disc).2) ∧
    (∀ k, OpEvent.kvGet k ∈ (GET req env now kvGetResult dOk pOk fresh disc).2 →
      ∃ s, req.uuid = some s ∧ s ≠ "") := by
  constructor
  · intro hnone
    have hu2 : jsTruthy req.uuid = false := by rw [hnone]; rfl
    have hEq : GET req env now kvGetResult dOk pOk fresh disc =
        issueNew fresh env.kvPresent now pOk disc := by
      unfold GET
      simp [hc, hb, hch, he, hua, hu2]
    refine ⟨hEq, fun k => ?_⟩
    rw [hEq]
    exact issueNew_no_kvGet fresh env.kvPresent now pOk disc k
  · intro k hmem
    by_cases hu : jsTruthy req.uuid = true
    · cases hrequ : req.uuid with
      | none =>
        rw [hrequ] at hu
        simp [jsTruthy] at hu
      | some s =>
        rw [hrequ] at hu
        refine ⟨s, rfl, ?_⟩
        simpa [jsTruthy] using hu
    · exfalso
      have hu2 : jsTruthy req.uuid = false := by
        cases h3 : jsTruthy req.uuid
        · rfl
        · exact absurd h3 hu
      have hEq : GET req env now kvGetResult dOk pOk fresh disc =
          issueNew fresh env.kvPresent now pOk disc := by
        unfold GET
        simp [hc, hb, hch, he, hua, hu2]
      rw [hEq] at hmem
      exact issueNew_no_kvGet fresh env.kvPresent now pOk disc k hmem

/-- Witness for C3 at a concrete identifier-less request. -/
theorem C3_witness :
    GET ⟨none, none, "https://strands.gg", some "Mozilla/5.0", none, none⟩
        ⟨some "tok", some "chan", true⟩ 0 (Except.ok none) true true "fresh"
        (DiscordResult.ok (some "new")) =
      issueNew "fresh" true 0 true (DiscordResult.ok (some "new")) ∧
    OpEvent.kvGet "discord:invite:u1" ∉
      (GET ⟨none, none, "https://strands.gg", some "Mozilla/5.0", none, none⟩
        ⟨some "tok", some "chan", true⟩ 0 (Except.ok none) true true "fresh"
        (DiscordResult.ok (some "new"))).2 :=
  ⟨((C3_fresh_uuid_no_cache_read
      ⟨none, none, "https://strands.gg", some "Mozilla/5.0", none, none⟩
      ⟨some "tok", some "chan", true⟩ 0 (Except.ok none) true true "fresh"
      (DiscordResult.ok (some "new"))
      (by decide) (by decide) (by decide) (by decide) (by decide)).1 rfl).1,
   ((C3_fresh_uuid_no_cache_read
      ⟨none, none, "https://strands.gg", some "Mozilla/5.0", none, none⟩
      ⟨some "tok", some "chan", true⟩ 0 (Except.ok none) true true "fresh"
      (DiscordResult.ok (some "new"))
      (by decide) (by decide) (by decide) (by decide) (by decide)).1 rfl).2
     "discord:invite:u1"⟩

/-- C4: on the issuance path (the cache holds no still-valid record for this
request), a non-success Discord status is propagated: the response carries
the upstream status and detail, and no KV put is ever performed. -/
theorem C4_upstream_failure_propagated
    (req : Request) (env : Env) (now : Int)
    (kvGetResult : Except Unit (Option InviteRecord))
    (dOk pOk : Bool) (fresh : String) (status : Nat) (detail : String)
    (hc : corsViolation req = false)
    (hb : jsTruthy env.botToken = true)
    (hch : jsTruthy env.channelId = true)
    (he : jsTruthy req.email = false)
    (hua : isBotUA ((req.userAgent).getD "") = false)
    (hmiss : ∀ rec, kvGetResult = Except.ok (some rec) → rec.expiresAt - now ≤ 10000) :
    (GET req env now kvGetResult dOk pOk fresh
        (DiscordResult.httpError status detail)).1 =
      ⟨status, RespBody.errorBody "Failed to generate invite" (some detail)⟩ ∧
    ∀ k r t o, OpEvent.kvPut k r t o ∉
      (GET req env now kvGetResult dOk pOk fresh
        (DiscordResult.httpError status detail)).2 := by
  unfold GET
  by_cases hq : jsTruthy req.uuid = true
  · by_cases hk : env.kvPresent = true
    · cases kvGetResult with
      | error e => simp [hc, hb, hch, he, hua, hq, hk, prependEvents, issueNew]
      | ok oc =>
        cases oc with
        | none => simp [hc, hb, hch, he, hua, hq, hk, prependEvents, issueNew]
        | some rec =>
          have hst := hmiss rec rfl
          have hnv : ¬ (10000 < rec.expiresAt - now) := by omega
          simp [hc, hb, hch, he, hua, hq, hk, hnv, prependEvents, issueNew]
    · simp [hc, hb, hch, he, hua, hq, hk, issueNew]
  · simp [hc, hb, hch, he, hua, hq, issueNew]

/-- Witness for C4 at a concrete cache-miss request and a 429 upstream. -/
theorem C4_witness :
    corsViolation ⟨none, none, "https://strands.gg", some "Mozilla/5.0", none, some "u1"⟩
      = false ∧
    (GET ⟨none, none, "https://strands.gg", some "Mozilla/5.0", none, some "u1"⟩
        ⟨some "tok", some "chan", true⟩ 0 (Except.ok none) true true "fresh"
        (DiscordResult.httpError 429 "rate limited")).1 =
      ⟨429, RespBody.errorBody "Failed to generate invite" (some "rate limited")⟩ :=
  ⟨by decide,
   (C4_upstream_failure_propagated
     ⟨none, none, "https://strands.gg", some "Mozilla/5.0", none, some "u1"⟩
     ⟨some "tok", some "chan", true⟩ 0 (Except.ok none) true true "fresh"
     429 "rate limited"
     (by decide) (by decide) (by decide) (by decide) (by decide)
     (by intro rec h; simp at h)).1⟩

/-- C5: on the issuance path, a success response from Discord that lacks the
code field yields a 500 error and writes nothing to the cache. -/
theorem C5_missing_code_500
    (req : Request) (env : Env) (now : Int)
    (kvGetResult : Except Unit (Option InviteRecord))
    (dOk pOk : Bool) (fresh : String)
    (hc : corsViolation req = false)
    (hb : jsTruthy env.botToken = true)
    (hch : jsTruthy env.channelId = true)
    (he : jsTruthy req.email = false)
    (hua : isBotUA ((req.userAgent).getD "") = false)
    (hmiss : ∀ rec, kvGetResult = Except.ok (some rec) → rec.expiresAt - now ≤ 10000) :
    (GET req env now kvGetResult dOk pOk fresh (DiscordResult.ok none)).1 =
      ⟨500, RespBody.errorBody "Invalid response from Discord API" none⟩ ∧
    ∀ k r t o, OpEvent.kvPut k r t o ∉
      (GET req env now kvGetResult dOk pOk fresh (DiscordResult.ok none)).2 := by
  have hcf : jsTruthy (none : Option String) = false := rfl
  unfold GET
  by_cases hq : jsTruthy req.uuid = true
  · by_cases hk : env.kvPresent = true
    · cases kvGetResult with
      | error e => simp [hc, hb, hch, he, hua, hq, hk, hcf, prependEvents, issueNew]
      | ok oc =>
        cases oc with
        | none => simp [hc, hb, hch, he, hua, hq, hk, hcf, prependEvents, issueNew]
        | some rec =>
          have hst := hmiss rec rfl
          have hnv : ¬ (10000 < rec.expiresAt - now) := by omega
          simp [hc, hb, hch, he, hua, hq, hk, hnv, hcf, prependEvents, issueNew]
    · simp [hc, hb, hch, he, hua, hq, hk, hcf, issueNew]
  · simp [hc, hb, hch, he, hua, hq, hcf, issueNew]

/-- Witness for C5 at a concrete cache-miss request. -/
theorem C5_witness :
    corsViolation ⟨none, none, "https://strands.gg", some "Mozilla/5.0", none, some "u1"⟩
      = false ∧
    (GET ⟨none, none, "https://strands.gg", some "Mozilla/5.0", none, some "u1"⟩
        ⟨some "tok", some "chan", true⟩ 0 (Except.ok none) true true "fresh"
        (DiscordResult.ok none)).1 =
      ⟨500, RespBody.errorBody "Invalid response from Discord API" none⟩ :=
  ⟨by decide,
   (C5_missing_code_500
     ⟨none, none, "https://strands.gg", some "Mozilla/5.0", none, some "u1"⟩
     ⟨some "tok", some "chan", true⟩ 0 (Except.ok none) true true "fresh"
     (by decide) (by decide) (by decide) (by decide) (by decide)
     (by intro rec h; simp at h)).1⟩

/-- C6: when every cache operation fails (the KV get raises, and delete and
put are refused), a request that passes the boundary filters and whose
Discord call succeeds still gets a freshly issued record with status 200;
the cache faults are never surfaced. -/
theorem C6_cache_outage_resilient
    (req : Request) (env : Env) (now : Int) (fresh newCode : String)
    (hc : corsViolation req = false)
    (hb : jsTruthy env.botToken = true)
    (hch : jsTruthy env.channelId = true)
    (he : jsTruthy req.email = false)
    (hua : isBotUA ((req.userAgent).getD "") = false)
    (hcode : newCode ≠ "") :
    (GET req env now (Except.error ()) false false fresh
        (DiscordResult.ok (some newCode))).1 =
      ⟨200, RespBody.inviteBody
        (if jsTruthy req.uuid then (req.uuid).getD "" else fresh)
        newCode (now + 120 * 1000) false now⟩ ∧
    OpEvent.discordCall ∈
      (GET req env now (Except.error ()) false false fresh
        (DiscordResult.ok (some newCode))).2 := by
  have hct : jsTruthy (some newCode) = true := by simp [jsTruthy, hcode]
  unfold GET
  by_cases hq : jsTruthy req.uuid = true
  · by_cases hk : env.kvPresent = true
    · simp [hc, hb, hch, he, hua, hq, hk, hct, prependEvents, issueNew]
    · simp [hc, hb, hch, he, hua, hq, hk, hct, issueNew]
  · by_cases hk : env.kvPresent = true <;>
      simp [hc, hb, hch, he, hua, hq, hk, hct, issueNew]

/-- Witness for C6 at a concrete request with a fully failing cache. -/
theorem C6_witness :
    corsViolation ⟨none, none, "https://strands.gg", some "Mozilla/5.0", none, some "u1"⟩
      = false ∧
    (GET ⟨none, none, "https://strands.gg", some "Mozilla/5.0", none, some "u1"⟩
        ⟨some "tok", some "chan", true⟩ 0 (Except.error ()) false false "fresh"
        (DiscordResult.ok (some "zzz"))).1 =
      ⟨200, RespBody.inviteBody "u1" "zzz" 120000 false 0⟩ ∧
    OpEvent.discordCall ∈
      (GET ⟨none, none, "https://strands.gg", some "Mozilla/5.0", none, some "u1"⟩
        ⟨some "tok", some "chan", true⟩ 0 (Except.error ()) false false "fresh"
        (DiscordResult.ok (some "zzz"))).2 := by
  have h := C6_cache_outage_resilient
    ⟨none, none, "https://strands.gg", some "Mozilla/5.0", none, some "u1"⟩
    ⟨some "tok", some "chan", true⟩ 0 "fresh" "zzz"
    (by decide) (by decide) (by decide) (by decide) (by decide) (by decide)
  exact ⟨by decide, by simpa using h.1, h.2⟩

/-- C7 counterexample: a request whose `email` parameter carries the value
"bot@x.com" but which also violates the CORS check is answered with the 403
CORS rejection, not with 400; and a request whose `email` parameter is
present but carries the empty value is not rejected at all (it is served
with 200, the JavaScript truthiness test skips empty strings). The
honeypot rejection as claimed is therefore not unconditional. -/
theorem C7_counterexample :
    jsTruthy (Request.email ⟨some "https://evil.example", none, "https://strands.gg",
        some "Mozilla/5.0", some "bot@x.com", none⟩) = true ∧
    (GET ⟨some "https://evil.example", none, "https://strands.gg", some "Mozilla/5.0",
        some "bot@x.com", none⟩ ⟨some "tok", some "chan", true⟩ 0 (Except.ok none)
        true true "fresh" (DiscordResult.ok (some "c"))).1.status = 403 ∧
    ¬ ((GET ⟨some "https://evil.example", none, "https://strands.gg", some "Mozilla/5.0",
        some "bot@x.com", none⟩ ⟨some "tok", some "chan", true⟩ 0 (Except.ok none)
        true true "fresh" (DiscordResult.ok (some "c"))).1.status = 400) ∧
    Request.email ⟨none, none, "https://strands.gg", some "Mozilla/5.0",
        some "", some "u1"⟩ = some "" ∧
    (GET ⟨none, none, "https://strands.gg", some "Mozilla/5.0", some "", some "u1"⟩
        ⟨some "tok", some "chan", true⟩ 0 (Except.ok none)
        true true "fresh" (DiscordResult.ok (some "c"))).1.status = 200 := by
  decide

/-- C7 (amended): a request that passes the CORS check and the configuration
check and whose `email` parameter carries a non-empty value is rejected with
status 400 and an empty operation trace: no cache consultation and no
issuance runs. -/
theorem C7_honeypot_rejected
    (req : Request) (env : Env) (now : Int)
    (kvGetResult : Except Unit (Option InviteRecord))
    (dOk pOk : Bool) (fresh : String) (disc : DiscordResult)
    (hc : corsViolation req = false)
    (hb : jsTruthy env.botToken = true)
    (hch : jsTruthy env.channelId = true)
    (he : jsTruthy req.email = true) :
    GET req env now kvGetResult dOk pOk fresh disc =
      (⟨400, RespBody.errorBody "Invalid request" none⟩, []) := by
  unfold GET
  simp [hc, hb, hch, he]

/-- Witness for the amended C7 at a concrete bot-filled request. -/
theorem C7_witness :
    jsTruthy (Request.email ⟨none, none, "https://strands.gg", some "Mozilla/5.0",
        some "bot@x.com", none⟩) = true ∧
    GET ⟨none, none, "https://strands.gg", some "Mozilla/5.0", some "bot@x.com", none⟩
        ⟨some "tok", some "chan", true⟩ 0 (Except.ok none) true true "fresh"
        (DiscordResult.ok (some "c")) =
      (⟨400, RespBody.errorBody "Invalid request" none⟩, []) :=
  ⟨by decide,
   C7_honeypot_rejected
     ⟨none, none, "https://strands.gg", some "Mozilla/5.0", some "bot@x.com", none⟩
     ⟨some "tok", some "chan", true⟩ 0 (Except.ok none) true true "fresh"
     (DiscordResult.ok (some "c"))
     (by decide) (by decide) (by decide) (by decide)⟩

/-- Helper: any KV put issued by the issuance phase stores a record created
at `now`, expiring at `now + 120000`, with TTL 120 seconds. -/
theorem issueNew_put_shape (u : String) (kvp : Bool) (now : Int) (pOk : Bool)
    (disc : DiscordResult) (k : String) (r : InviteRecord) (t : Int) (o : Bool)
    (hmem : OpEvent.kvPut k r t o ∈ (issueNew u kvp now pOk disc).2) :
    r.createdAt = now ∧ r.expiresAt = now + 120 * 1000 ∧ t = 120 := by
  unfold issueNew at hmem
  cases disc with
  | fetchError => simp at hmem
  | httpError status detail => simp at hmem
  | ok codeOpt =>
    by_cases hcd : jsTruthy codeOpt = true
    · by_cases hkp : kvp = true
      · simp [hcd, hkp] at hmem
        obtain ⟨hk2, hr, ht, ho⟩ := hmem
        subst hr
        subst ht
        exact ⟨rfl, rfl, rfl⟩
      · simp [hcd, hkp] at hmem
    · simp [hcd] at hmem

/-- Helper: any KV put in the whole handler's trace has the same shape. -/
theorem GET_put_shape
    (req : Request) (env : Env) (now : Int)
    (kvGetResult : Except Unit (Option InviteRecord))
    (dOk pOk : Bool) (fresh : String) (disc : DiscordResult)
    (k : String) (r : InviteRecord) (t : Int) (o : Bool)
    (hmem : OpEvent.kvPut k r t o ∈ (GET req env now kvGetResult dOk pOk fresh disc).2) :
    r.createdAt = now ∧ r.expiresAt = now + 120 * 1000 ∧ t = 120 := by
  unfold GET at hmem
  split at hmem
  · simp at hmem
  · split at hmem
    · simp at hmem
    · split at hmem
      · simp at hmem
      · split at hmem
        · simp at hmem
        · split at hmem
          · split at hmem
            · simp only [prependEvents, List.cons_append, List.nil_append,
                List.mem_cons] at hmem
              rcases hmem with h0 | hmem
              · simp at h0
              · exact issueNew_put_shape _ _ _ _ _ _ _ _ _ hmem
            · simp only [prependEvents, List.cons_append, List.nil_append,
                List.mem_cons] at hmem
              rcases hmem with h0 | hmem
              · simp at h0
              · exact issueNew_put_shape _ _ _ _ _ _ _ _ _ hmem
            · split at hmem
              · simp at hmem
              · simp only [prependEvents, List.cons_append, List.nil_append,
                  List.mem_cons] at hmem
                rcases hmem with h0 | h0 | hmem
                · simp at h0
                · simp at h0
                · exact issueNew_put_shape _ _ _ _ _ _ _ _ _ hmem
          · exact issueNew_put_shape _ _ _ _ _ _ _ _ _ hmem

/-- C8: every record the handler stores in KV satisfies
`expiresAt = createdAt + 120000 > createdAt`, both timestamps derived from
the single `now` taken at the start of the request, and the TTL is the
remaining seconds until expiry rounded down. -/
theorem C8_stored_record_invariant
    (req : Request) (env : Env) (now : Int)
    (kvGetResult : Except Unit (Option InviteRecord))
    (dOk pOk : Bool) (fresh : String) (disc : DiscordResult)
    (k : String) (r : InviteRecord) (t : Int) (o : Bool)
    (hmem : OpEvent.kvPut k r t o ∈ (GET req env now kvGetResult dOk pOk fresh disc).2) :
    r.createdAt = now ∧ r.expiresAt = r.createdAt + 120 * 1000 ∧
    r.createdAt < r.expiresAt ∧ t = (r.expiresAt - now) / 1000 := by
  obtain ⟨h1, h2, h3⟩ := GET_put_shape req env now kvGetResult dOk pOk fresh disc
    k r t o hmem
  refine ⟨h1, by omega, by omega, ?_⟩
  have h4 : r.expiresAt - now = 120000 := by omega
  rw [h4, h3]
  decide

/-- Witness for C8 at a concrete request whose trace contains a KV put. -/
theorem C8_witness :
    OpEvent.kvPut "discord:invite:u1" ⟨"u1", "c", 120000, 0⟩ 120 true ∈
      (GET ⟨none, none, "https://strands.gg", some "Mozilla/5.0", none, some "u1"⟩
        ⟨some "tok", some "chan", true⟩ 0 (Except.ok none) true true "fresh"
        (DiscordResult.ok (some "c"))).2 ∧
    ((⟨"u1", "c", 120000, 0⟩ : InviteRecord).createdAt = 0 ∧
     (⟨"u1", "c", 120000, 0⟩ : InviteRecord).expiresAt =
       (⟨"u1", "c", 120000, 0⟩ : InviteRecord).createdAt + 120 * 1000 ∧
     (⟨"u1", "c", 120000, 0⟩ : InviteRecord).createdAt <
       (⟨"u1", "c", 120000, 0⟩ : InviteRecord).expiresAt ∧
     (120 : Int) = ((⟨"u1", "c", 120000, 0⟩ : InviteRecord).expiresAt - 0) / 1000) :=
  ⟨by decide,
   C8_stored_record_invariant
     ⟨none, none, "https://strands.gg", some "Mozilla/5.0", none, some "u1"⟩
     ⟨some "tok", some "chan", true⟩ 0 (Except.ok none) true true "fresh"
     (DiscordResult.ok (some "c"))
     "discord:invite:u1" ⟨"u1", "c", 120000, 0⟩ 120 true
     (by decide)⟩

/-- Helper: the issuance phase never answers with the CORS Forbidden body. -/
theorem issueNew_not_forbidden (u : String) (kvp : Bool) (now : Int) (pOk : Bool)
    (disc : DiscordResult) :
    (issueNew u kvp now pOk disc).1 ≠ ⟨403, RespBody.errorBody "Forbidden" none⟩ := by
  unfold issueNew
  cases disc with
  | fetchError => simp
  | httpError status detail => simp
  | ok codeOpt =>
    by_cases hcd : jsTruthy codeOpt = true
    · by_cases hkp : kvp = true <;> simp [hcd, hkp]
    · simp [hcd]

/-- Helper: the 403 Forbidden response is produced only by the CORS guard. -/
theorem GET_forbidden_only_cors
    (req : Request) (env : Env) (now : Int)
    (kvGetResult : Except Unit (Option InviteRecord))
    (dOk pOk : Bool) (fresh : String) (disc : DiscordResult)
    (hresp : (GET req env now kvGetResult dOk pOk fresh disc).1 =
      ⟨403, RespBody.errorBody "Forbidden" none⟩) :
    corsViolation req = true := by
  unfold GET at hresp
  split at hresp
  case isTrue h => exact h
  case isFalse h =>
    exfalso
    split at hresp
    · simp at hresp
    · split at hresp
      · simp at hresp
      · split at hresp
        · simp at hresp
        · split at hresp
          · split at hresp
            · simp only [prependEvents] at hresp
              exact issueNew_not_forbidden _ _ _ _ _ hresp
            · simp only [prependEvents] at hresp
              exact issueNew_not_forbidden _ _ _ _ _ hresp
            · split at hresp
              · simp at hresp
              · simp only [prependEvents] at hresp
                exact issueNew_not_forbidden _ _ _ _ _ hresp
          · exact issueNew_not_forbidden _ _ _ _ _ hresp

/-- C9: a request with neither an Origin nor a Referer header passes the
CORS filter, and the 403 Forbidden CORS rejection is returned only when an
Origin header is present and differs from the request's own origin or a
Referer header is present and does not start with it. -/
theorem C9_cors_filter
    (req : Request) (env : Env) (now : Int)
    (kvGetResult : Except Unit (Option InviteRecord))
    (dOk pOk : Bool) (fresh : String) (disc : DiscordResult) :
    (req.origin = none → req.referer = none → corsViolation req = false) ∧
    ((GET req env now kvGetResult dOk pOk fresh disc).1 =
        ⟨403, RespBody.errorBody "Forbidden" none⟩ →
      (∃ o, req.origin = some o ∧ o ≠ req.urlOrigin) ∨
      (∃ r, req.referer = some r ∧ strStartsWith r req.urlOrigin = false)) := by
  constructor
  · intro h1 h2
    unfold corsViolation
    rw [h1, h2]
    rfl
  · intro hresp
    have hcv : corsViolation req = true :=
      GET_forbidden_only_cors req env now kvGetResult dOk pOk fresh disc hresp
    unfold corsViolation at hcv
    rw [Bool.or_eq_true] at hcv
    rcases hcv with h | h
    · left
      cases ho : req.origin with
      | none =>
        rw [ho] at h
        simp at h
      | some o2 =>
        rw [ho] at h
        simp at h
        exact ⟨o2, rfl, h.2⟩
    · right
      cases hr : req.referer with
      | none =>
        rw [hr] at h
        simp at h
      | some r2 =>
        rw [hr] at h
        simp at h
        exact ⟨r2, rfl, h.2⟩

/-- Witness for C9: the header-less request passes the CORS filter. -/
theorem C9_witness :
    corsViolation ⟨none, none, "https://strands.gg", some "Mozilla/5.0", none, none⟩
      = false :=
  (C9_cors_filter ⟨none, none, "https://strands.gg", some "Mozilla/5.0", none, none⟩
    ⟨some "tok", some "chan", true⟩ 0 (Except.ok none) true true "fresh"
    (DiscordResult.ok (some "c"))).1 rfl rfl

/-- Helper: the issuance phase never answers with the missing-configuration
body. -/
theorem issueNew_not_config_error (u : String) (kvp : Bool) (now : Int) (pOk : Bool)
    (disc : DiscordResult) :
    (issueNew u kvp now pOk disc).1 ≠
      ⟨500, RespBody.errorBody "Missing Discord bot configuration" none⟩ := by
  unfold issueNew
  cases disc with
  | fetchError => simp
  | httpError status detail => simp
  | ok codeOpt =>
    by_cases hcd : jsTruthy codeOpt = true
    · by_cases hkp : kvp = true <;> simp [hcd, hkp]
    · simp [hcd]

/-- C10: the 500 missing-configuration error occurs only when the bot token
or the channel id is absent (a missing KV binding is not a configuration
error); and with no KV binding, a request that passes the boundary filters
and whose Discord call succeeds gets a fresh 200 record and a trace
containing only the Discord call — no cache operation at all. -/
theorem C10_kv_binding_optional
    (req : Request) (env : Env) (now : Int)
    (kvGetResult : Except Unit (Option InviteRecord))
    (dOk pOk : Bool) (fresh newCode : String) (disc : DiscordResult) :
    ((GET req env now kvGetResult dOk pOk fresh disc).1 =
        ⟨500, RespBody.errorBody "Missing Discord bot configuration" none⟩ →
      jsTruthy env.botToken = false ∨ jsTruthy env.channelId = false) ∧
    (corsViolation req = false → jsTruthy env.botToken = true →
      jsTruthy env.channelId = true → jsTruthy req.email = false →
      isBotUA ((req.userAgent).getD "") = false → env.kvPresent = false →
      newCode ≠ "" →
      GET req env now kvGetResult dOk pOk fresh (DiscordResult.ok (some newCode)) =
        (⟨200, RespBody.inviteBody
            (if jsTruthy req.uuid then (req.uuid).getD "" else fresh)
            newCode (now + 120 * 1000) false now⟩,
          [OpEvent.discordCall])) := by
  constructor
  · intro hresp
    unfold GET at hresp
    split at hresp
    · simp at hresp
    · split at hresp
      case isTrue h =>
        rw [Bool.or_eq_true] at h
        rcases h with h | h
        · left
          simpa using h
        · right
          simpa using h
      case isFalse h =>
        exfalso
        split at hresp
        · simp at hresp
        · split at hresp
          · simp at hresp
          · split at hresp
            · split at hresp
              · simp only [prependEvents] at hresp
                exact issueNew_not_config_error _ _ _ _ _ hresp
              · simp only [prependEvents] at hresp
                exact issueNew_not_config_error _ _ _ _ _ hresp
              · split at hresp
                · simp at hresp
                · simp only [prependEvents] at hresp
                  exact issueNew_not_config_error _ _ _ _ _ hresp
            · exact issueNew_not_config_error _ _ _ _ _ hresp
  · intro hc hb hch he hua hkv hcode
    have hct : jsTruthy (some newCode) = true := by simp [jsTruthy, hcode]
    unfold GET
    by_cases hq : jsTruthy req.uuid = true <;>
      simp [hc, hb, hch, he, hua, hkv, hq, hct, issueNew]

/-- Witness for C10: a missing bot token is flagged, and a present token
with an absent KV binding is served fresh with only the Discord call. -/
theorem C10_witness :
    (jsTruthy (Env.botToken ⟨none, some "chan", false⟩) = false ∨
     jsTruthy (Env.channelId ⟨none, some "chan", false⟩) = false) ∧
    GET ⟨none, none, "https://strands.gg", some "Mozilla/5.0", none, some "u1"⟩
        ⟨some "tok", some "chan", false⟩ 0 (Except.ok none) true true "fresh"
        (DiscordResult.ok (some "c")) =
      (⟨200, RespBody.inviteBody "u1" "c" 120000 false 0⟩, [OpEvent.discordCall]) := by
  constructor
  · exact (C10_kv_binding_optional
      ⟨none, none, "https://strands.gg", some "Mozilla/5.0", none, some "u1"⟩
      ⟨none, some "chan", false⟩ 0 (Except.ok none) true true "fresh" "c"
      (DiscordResult.ok (some "c"))).1 (by decide)
  · have h := (C10_kv_binding_optional
      ⟨none, none, "https://strands.gg", some "Mozilla/5.0", none, some "u1"⟩
      ⟨some "tok", some "chan", false⟩ 0 (Except.ok none) true true "fresh" "c"
      (DiscordResult.ok (some "c"))).2
      (by decide) (by decide) (by decide) (by decide) (by decide) (by decide)
      (by decide)
    simpa using h

end Invite
